import Mathlib

/-!
Verification of the persistent storage manager of the omniscidb storage layer
(`DataMgr/PersistentStorageMgr/PersistentStorageMgr.h`).

The repository fragment contains the class declaration and, under the
`HAVE_DCPMM` build, the inline body of the row-count/type-size `createBuffer`
overload.  Those parts are embedded directly from the source.  The bodies of
the remaining methods live in `PersistentStorageMgr.cpp`, which is not part of
the fragment; they are modelled from the specification's description of the
dispatcher (classify the chunk key, forward to exactly one of the Local
file-backed backend and the Foreign backend) and of the two backend contracts.
Every such definition is marked `Modelled from the spec:` in its doc comment.
-/

/-- A chunk key: an ordered tuple of small integers
`[db_id, table_id, column_id, fragment_id]` (length 2 to 4). -/
abbrev ChunkKey := List Nat

/-- The error taxonomy of the manager (spec section 7). -/
inductive StorageErr where
  | UnregisteredTable
  | ChunkNotFound
  | DuplicateChunk
  | ReadOnlyBackend
  | UncommittedDataPresent
  | BackendUnavailable
  | InvalidArgument
deriving DecidableEq, Repr

/-- The two storage backends the dispatcher routes between. -/
inductive BackendKind where
  | Local
  | Foreign
deriving DecidableEq, Repr

/-- Modelled from the spec: the request modifier carried on read/create calls
("normal", "metadata-only", "for-update"); it never changes which backend is
selected.  The concrete C++ enum is not part of the fragment. -/
inductive BufferProperty where
  | Normal
  | MetadataOnly
  | ForUpdate
deriving DecidableEq, Repr

/-- The bookkeeping of one in-memory chunk buffer: current byte size, expected
row count, dirty flag, and byte content. -/
structure AbstractBuffer where
  size : Nat
  maxRows : Nat
  isDirty : Bool
  content : List Nat
deriving DecidableEq, Repr

/-- The capacity accounting a backend reports: its maximum size (`none` means
the backend reports no cap), bytes in use, bytes allocated, and whether its
allocation is capped. -/
structure BackendStats where
  maxSize : Option Nat
  inUse : Nat
  allocated : Nat
  capped : Bool
deriving DecidableEq, Repr

/-- The Local (file-backed) backend: its resident buffers, the number of cached
slab pages, and its reported capacity statistics. -/
structure LocalMgr where
  buffers : List (ChunkKey × AbstractBuffer)
  cachedPages : Nat
  stats : BackendStats
deriving DecidableEq, Repr

/-- The Foreign backend: its materialized buffers, the content obtainable from
the backing source, and its reported capacity statistics. -/
structure ForeignMgr where
  buffers : List (ChunkKey × AbstractBuffer)
  source : List (ChunkKey × List Nat)
  stats : BackendStats
deriving DecidableEq, Repr

/-- The persistent storage manager: the routing registry together with the two
backends it owns (`global_file_mgr` and `foreign_storage_mgr`, as in the
header). -/
structure PersistentStorageMgr where
  registry : List ((Nat × Nat) × BackendKind)
  global_file_mgr : LocalMgr
  foreign_storage_mgr : ForeignMgr
deriving DecidableEq, Repr

/-- Look a chunk key up in an association list of buffers. -/
def lookupKey (m : List (ChunkKey × AbstractBuffer)) (k : ChunkKey) :
    Option AbstractBuffer :=
  match m with
  | [] => none
  | e :: rest => if e.1 = k then some e.2 else lookupKey rest k

/-- Apply `f` to the buffer stored under `k`, leaving other entries alone. -/
def updateKey (m : List (ChunkKey × AbstractBuffer)) (k : ChunkKey)
    (f : AbstractBuffer → AbstractBuffer) : List (ChunkKey × AbstractBuffer) :=
  m.map (fun e => if e.1 = k then (e.1, f e.2) else e)

/-- Look a content entry up in the foreign source. -/
def lookupSource (m : List (ChunkKey × List Nat)) (k : ChunkKey) :
    Option (List Nat) :=
  match m with
  | [] => none
  | e :: rest => if e.1 = k then some e.2 else lookupSource rest k

/-- The table component of a chunk key: its first two entries. -/
def tableOfKey (k : ChunkKey) : Option (Nat × Nat) :=
  match k with
  | db :: tb :: _ => some (db, tb)
  | _ => none

/-- Look a table up in the routing registry. -/
def lookupRegistry (reg : List ((Nat × Nat) × BackendKind)) (t : Nat × Nat) :
    Option BackendKind :=
  match reg with
  | [] => none
  | e :: rest => if e.1 = t then some e.2 else lookupRegistry rest t

/-- Modelled from the spec: the routing predicate
`classify(chunk_key) -> Local or Foreign` backing the private
`isForeignStorage` of the header; pure and total given a populated registry,
it fails with `UnregisteredTable` when no table-level classification exists
for the key's table component.  Its C++ body is not part of the fragment. -/
def classify (s : PersistentStorageMgr) (k : ChunkKey) :
    Except StorageErr BackendKind :=
  match tableOfKey k with
  | none => .error .UnregisteredTable
  | some t =>
    match lookupRegistry s.registry t with
    | none => .error .UnregisteredTable
    | some b => .ok b

/-- Modelled from the spec: the private routing helper declared in the header;
true exactly when the key classifies Foreign. -/
def isForeignStorage (s : PersistentStorageMgr) (k : ChunkKey) :
    Except StorageErr Bool :=
  (classify s k).map (fun b => b == BackendKind.Foreign)

/-- The modulus of the machine's 64-bit `size_t` arithmetic. -/
def SIZE_T_MOD : Nat := 2 ^ 64

/-- Conversion of a C++ `int` value to `size_t`: reduction modulo `2 ^ 64`
(a negative value wraps around). -/
def sizeTOfInt (i : Int) : Nat := (i % (SIZE_T_MOD : Int)).toNat

/-- Multiplication in `size_t` arithmetic: the product reduced
modulo `2 ^ 64`. -/
def sizeTMul (a b : Nat) : Nat := (a * b) % SIZE_T_MOD

/-- The initial byte size the row-count/type-size `createBuffer` overload
passes to the page-size/initial-size overload: the C++ expression
`maxRows * sqlTypeSize`, a `size_t * int` product evaluated in `size_t`
arithmetic (header line 43). -/
def rowCountInitialSize (maxRows : Nat) (sqlTypeSize : Int) : Nat :=
  sizeTMul maxRows (sizeTOfInt sqlTypeSize)

/-- Modelled from the spec: the page-size/initial-size `createBuffer` (declared
at header lines 57-60; its body is in the missing `PersistentStorageMgr.cpp`).
Classify the key, then request allocation from the selected backend; fail with
`DuplicateChunk` if a buffer for that key already exists there.  The returned
`Option ChunkKey` models the C++ `AbstractBuffer*` (with `none` for a null
pointer); page size is advisory and ignored for Foreign-backed chunks. -/
def createBuffer (s : PersistentStorageMgr) (_p : BufferProperty) (k : ChunkKey)
    (_page_size initial_size : Nat) :
    Except StorageErr (Option ChunkKey) × PersistentStorageMgr :=
  match classify s k with
  | .error e => (.error e, s)
  | .ok .Local =>
    match lookupKey s.global_file_mgr.buffers k with
    | some _ => (.error .DuplicateChunk, s)
    | none =>
      (.ok (some k),
        { s with global_file_mgr :=
            { s.global_file_mgr with buffers :=
                (k, ⟨initial_size, 0, false, []⟩) :: s.global_file_mgr.buffers } })
  | .ok .Foreign =>
    match lookupKey s.foreign_storage_mgr.buffers k with
    | some _ => (.error .DuplicateChunk, s)
    | none =>
      (.ok (some k),
        { s with foreign_storage_mgr :=
            { s.foreign_storage_mgr with buffers :=
                (k, ⟨initial_size, 0, false, []⟩) ::
                  s.foreign_storage_mgr.buffers } })

/-- Record the expected row count on the buffer stored under `k` (the model of
the C++ `buffer->setMaxRows(maxRows)` on the pointer a backend returned); the
buffer lives in exactly one backend, looked up Local first. -/
def setMaxRows (s : PersistentStorageMgr) (k : ChunkKey) (n : Nat) :
    PersistentStorageMgr :=
  if (lookupKey s.global_file_mgr.buffers k).isSome then
    { s with global_file_mgr :=
        { s.global_file_mgr with buffers :=
            (updateKey s.global_file_mgr.buffers k
              (fun b => { b with maxRows := n })) } }
  else
    { s with foreign_storage_mgr :=
        { s.foreign_storage_mgr with buffers :=
            (updateKey s.foreign_storage_mgr.buffers k
              (fun b => { b with maxRows := n })) } }

/-- The row-count/type-size `createBuffer` overload, embedded from its inline
body at header lines 38-46: it calls the page-size/initial-size overload with
initial size `maxRows * sqlTypeSize`, records `maxRows` on the returned buffer
and returns that same buffer.  The `none` branch is the C++ null dereference;
it is unreachable by the non-null theorem below. -/
def createBufferRowCount (s : PersistentStorageMgr) (p : BufferProperty)
    (k : ChunkKey) (maxRows : Nat) (sqlTypeSize : Int) (page_size : Nat) :
    Except StorageErr (Option ChunkKey) × PersistentStorageMgr :=
  match createBuffer s p k page_size (rowCountInitialSize maxRows sqlTypeSize) with
  | (.error e, s1) => (.error e, s1)
  | (.ok none, s1) => (.ok none, s1)
  | (.ok (some h), s1) => (.ok (some h), setMaxRows s1 h maxRows)

/-- Modelled from the spec: `getBuffer` (header line 64; body in the missing
`.cpp`).  Classify, then delegate to the selected backend's retrieval path: a
resident buffer is returned, a Foreign non-resident buffer is synchronously
materialized from the source, and a key never created fails with
`ChunkNotFound`. -/
def getBuffer (s : PersistentStorageMgr) (_p : BufferProperty) (k : ChunkKey)
    (_num_bytes : Nat) :
    Except StorageErr (Option ChunkKey) × PersistentStorageMgr :=
  match classify s k with
  | .error e => (.error e, s)
  | .ok .Local =>
    match lookupKey s.global_file_mgr.buffers k with
    | some _ => (.ok (some k), s)
    | none => (.error .ChunkNotFound, s)
  | .ok .Foreign =>
    match lookupKey s.foreign_storage_mgr.buffers k with
    | some _ => (.ok (some k), s)
    | none =>
      match lookupSource s.foreign_storage_mgr.source k with
      | some data =>
        (.ok (some k),
          { s with foreign_storage_mgr :=
              { s.foreign_storage_mgr with buffers :=
                  (k, ⟨data.length, 0, false, data⟩) ::
                    s.foreign_storage_mgr.buffers } })
      | none => (.error .ChunkNotFound, s)

/-- Modelled from the spec: `fetchBuffer` (header lines 65-67; body in the
missing `.cpp`).  Classify, then copy the authoritative buffer's first
`num_bytes` bytes into the caller's destination, materializing a Foreign
buffer first when needed; fails with `ChunkNotFound` when the key has no
buffer and no source content. -/
def fetchBuffer (s : PersistentStorageMgr) (k : ChunkKey) (num_bytes : Nat) :
    Except StorageErr (List Nat) × PersistentStorageMgr :=
  match classify s k with
  | .error e => (.error e, s)
  | .ok .Local =>
    match lookupKey s.global_file_mgr.buffers k with
    | some b => (.ok (b.content.take num_bytes), s)
    | none => (.error .ChunkNotFound, s)
  | .ok .Foreign =>
    match lookupKey s.foreign_storage_mgr.buffers k with
    | some b => (.ok (b.content.take num_bytes), s)
    | none =>
      match lookupSource s.foreign_storage_mgr.source k with
      | some data =>
        (.ok (data.take num_bytes),
          { s with foreign_storage_mgr :=
              { s.foreign_storage_mgr with buffers :=
                  (k, ⟨data.length, 0, false, data⟩) ::
                    s.foreign_storage_mgr.buffers } })
      | none => (.error .ChunkNotFound, s)

/-- Modelled from the spec: `putBuffer` (header lines 68-70; body in the
missing `.cpp`).  Classify, then write the caller's data into the Local
backend's buffer for the key, creating it first if absent and marking it
dirty; a Foreign-classified key rejects the write with `ReadOnlyBackend` and
nothing is applied. -/
def putBuffer (s : PersistentStorageMgr) (k : ChunkKey) (src : List Nat)
    (num_bytes : Nat) :
    Except StorageErr (Option ChunkKey) × PersistentStorageMgr :=
  match classify s k with
  | .error e => (.error e, s)
  | .ok .Foreign => (.error .ReadOnlyBackend, s)
  | .ok .Local =>
    match lookupKey s.global_file_mgr.buffers k with
    | some b =>
      (.ok (some k),
        { s with global_file_mgr :=
            { s.global_file_mgr with buffers :=
                (updateKey s.global_file_mgr.buffers k
                  (fun _ =>
                    ⟨num_bytes, b.maxRows, true, src.take num_bytes⟩)) } })
    | none =>
      (.ok (some k),
        { s with global_file_mgr :=
            { s.global_file_mgr with buffers :=
                (k, ⟨num_bytes, 0, true, src.take num_bytes⟩) ::
                  s.global_file_mgr.buffers } })

/-- Modelled from the spec: `deleteBuffer` (header line 61; body in the
missing `.cpp`).  Classify, then forward the deletion (with the verbatim
`purge` flag, which only affects backend-internal reclamation) to the serving
backend. -/
def deleteBuffer (s : PersistentStorageMgr) (k : ChunkKey) (_purge : Bool) :
    Except StorageErr Unit × PersistentStorageMgr :=
  match classify s k with
  | .error e => (.error e, s)
  | .ok .Local =>
    (.ok (),
      { s with global_file_mgr :=
          { s.global_file_mgr with buffers :=
              (s.global_file_mgr.buffers.filter (fun e => ! (e.1 == k))) } })
  | .ok .Foreign =>
    (.ok (),
      { s with foreign_storage_mgr :=
          { s.foreign_storage_mgr with buffers :=
              (s.foreign_storage_mgr.buffers.filter (fun e => ! (e.1 == k))) } })

/-- Modelled from the spec: `isBufferOnDevice` (header line 77; body in the
missing `.cpp`).  Classify, then report whether the serving backend currently
has the buffer materialized. -/
def isBufferOnDevice (s : PersistentStorageMgr) (k : ChunkKey) :
    Except StorageErr Bool × PersistentStorageMgr :=
  match classify s k with
  | .error e => (.error e, s)
  | .ok .Local => (.ok (lookupKey s.global_file_mgr.buffers k).isSome, s)
  | .ok .Foreign => (.ok (lookupKey s.foreign_storage_mgr.buffers k).isSome, s)

/-- Modelled from the spec: the full `checkpoint()` (header line 84; body in
the missing `.cpp`).  All pending Local writes become durable: every Local
buffer's dirty flag is cleared.  The call is forwarded to the Local backend
only. -/
def checkpoint (s : PersistentStorageMgr) : PersistentStorageMgr :=
  { s with global_file_mgr :=
      { s.global_file_mgr with buffers :=
          (s.global_file_mgr.buffers.map
            (fun e => (e.1, { e.2 with isDirty := false }))) } }

/-- Modelled from the spec: the table-scoped `checkpoint(db_id, tb_id)`
(header line 85; body in the missing `.cpp`).  Pending Local writes of the one
table become durable, at full table granularity; forwarded to the Local
backend only. -/
def checkpointTable (s : PersistentStorageMgr) (db_id tb_id : Nat) :
    PersistentStorageMgr :=
  { s with global_file_mgr :=
      { s.global_file_mgr with buffers :=
          (s.global_file_mgr.buffers.map
            (fun e =>
              if tableOfKey e.1 = some (db_id, tb_id) then
                (e.1, { e.2 with isDirty := false })
              else e)) } }

/-- Whether the Local backend holds a dirty (unflushed) buffer. -/
def hasDirtyLocal (s : PersistentStorageMgr) : Bool :=
  s.global_file_mgr.buffers.any (fun e => e.2.isDirty)

/-- Modelled from the spec: `clearSlabs` (header line 79; body in the missing
`.cpp`).  Discards the Local backend's cached pages, but must not discard
unflushed writes: it fails with `UncommittedDataPresent`, discarding nothing,
while a dirty Local buffer exists. -/
def clearSlabs (s : PersistentStorageMgr) :
    Except StorageErr Unit × PersistentStorageMgr :=
  if hasDirtyLocal s then (.error .UncommittedDataPresent, s)
  else
    (.ok (),
      { s with global_file_mgr := { s.global_file_mgr with cachedPages := 0 } })

/-- A backend's "no cap" sentinel contribution to the max-size sum: a backend
reporting no cap contributes the sentinel `0` rather than making the sum
unbounded. -/
def noCapContribution (o : Option Nat) : Nat :=
  match o with
  | none => 0
  | some m => m

/-- Modelled from the spec: `getMaxSize` (header line 80; body in the missing
`.cpp`): the sum of the backends' reported max sizes, an uncapped backend
contributing the "no cap" sentinel. -/
def getMaxSize (s : PersistentStorageMgr) : Nat :=
  noCapContribution s.global_file_mgr.stats.maxSize +
    noCapContribution s.foreign_storage_mgr.stats.maxSize

/-- Modelled from the spec: `getInUseSize` (header line 81; body in the
missing `.cpp`): the sum of the backends' reported in-use sizes. -/
def getInUseSize (s : PersistentStorageMgr) : Nat :=
  s.global_file_mgr.stats.inUse + s.foreign_storage_mgr.stats.inUse

/-- Modelled from the spec: `getAllocated` (header line 82; body in the
missing `.cpp`): the sum of the backends' reported allocated sizes. -/
def getAllocated (s : PersistentStorageMgr) : Nat :=
  s.global_file_mgr.stats.allocated + s.foreign_storage_mgr.stats.allocated

/-- Modelled from the spec: `isAllocationCapped` (header line 83; body in the
missing `.cpp`): true only if every backend reports capped. -/
def isAllocationCapped (s : PersistentStorageMgr) : Bool :=
  s.global_file_mgr.stats.capped && s.foreign_storage_mgr.stats.capped

/-- Whether a chunk key belongs to the table `(db_id, tb_id)`. -/
def inTable (db_id tb_id : Nat) (k : ChunkKey) : Bool :=
  decide (tableOfKey k = some (db_id, tb_id))

/-- The number of chunks of the table `(db_id, tb_id)` resident in either
backend. -/
def residentChunks (s : PersistentStorageMgr) (db_id tb_id : Nat) : Nat :=
  (s.global_file_mgr.buffers.filter (fun e => inTable db_id tb_id e.1)).length +
    (s.foreign_storage_mgr.buffers.filter (fun e => inTable db_id tb_id e.1)).length

/-- A buffer looked up across both backends, Local first: the authoritative
buffer instance for the key. -/
def lookupAny (s : PersistentStorageMgr) (k : ChunkKey) :
    Option AbstractBuffer :=
  match lookupKey s.global_file_mgr.buffers k with
  | some b => some b
  | none => lookupKey s.foreign_storage_mgr.buffers k

/-- The expected row count recorded on the buffer stored under `k`, if any. -/
def maxRowsAt (s : PersistentStorageMgr) (k : ChunkKey) : Option Nat :=
  (lookupAny s k).map (fun b => b.maxRows)

/-- Modelled from the spec: `removeTableRelatedDS` (header line 91; body in
the missing `.cpp`).  Forwards removal of the table's data to whichever
backend(s) hold data for that table; the call cannot fail. -/
def removeTableRelatedDS (s : PersistentStorageMgr) (db_id tb_id : Nat) :
    PersistentStorageMgr :=
  { s with
    global_file_mgr :=
      { s.global_file_mgr with buffers :=
          (s.global_file_mgr.buffers.filter
            (fun e => ! inTable db_id tb_id e.1)) },
    foreign_storage_mgr :=
      { s.foreign_storage_mgr with buffers :=
          (s.foreign_storage_mgr.buffers.filter
            (fun e => ! inTable db_id tb_id e.1)) } }

/-- A small populated manager: table `(1, 2)` classified Local, table `(3, 4)`
classified Foreign, no resident buffers; the Local backend reports max size
100, 40 bytes in use and 40 allocated, the Foreign backend reports no cap, 10
in use and 10 allocated (the aggregation example of the spec). -/
def sampleMgr : PersistentStorageMgr :=
  { registry := [((1, 2), BackendKind.Local), ((3, 4), BackendKind.Foreign)],
    global_file_mgr :=
      { buffers := [], cachedPages := 3, stats := ⟨some 100, 40, 40, true⟩ },
    foreign_storage_mgr :=
      { buffers := [], source := [([3, 4, 1, 0], [7, 7])],
        stats := ⟨none, 10, 10, false⟩ } }

/-- A manager whose Local backend holds one dirty (unflushed) buffer for table
`(1, 2)`. -/
def dirtyMgr : PersistentStorageMgr :=
  { registry := [((1, 2), BackendKind.Local)],
    global_file_mgr :=
      { buffers := [([1, 2, 1, 0], ⟨4, 0, true, [9, 9, 9, 9]⟩)],
        cachedPages := 2, stats := ⟨some 100, 4, 4, true⟩ },
    foreign_storage_mgr :=
      { buffers := [], source := [], stats := ⟨none, 0, 0, false⟩ } }

/-- The manager state after creating one Local buffer in `sampleMgr` through
the page-size/initial-size overload. -/
def sampleCreated : PersistentStorageMgr :=
  (createBuffer sampleMgr BufferProperty.Normal [1, 2, 1, 0] 8
    (rowCountInitialSize 10 4)).2

/-- Looking up the key just updated returns the updated buffer. -/
theorem lookupKey_updateKey (m : List (ChunkKey × AbstractBuffer))
    (k : ChunkKey) (f : AbstractBuffer → AbstractBuffer) :
    lookupKey (updateKey m k f) k = (lookupKey m k).map f := by
  induction m with
  | nil => rfl
  | cons e rest ih =>
    by_cases h : e.1 = k
    · simp [updateKey, lookupKey, h]
    · simp only [updateKey, List.map_cons] at ih ⊢
      simp [lookupKey, h, ih]

/-- Clearing every dirty flag leaves no dirty entry behind. -/
theorem any_isDirty_map_clear (l : List (ChunkKey × AbstractBuffer)) :
    (l.map (fun e => (e.1, { e.2 with isDirty := false }))).any
      (fun e => e.2.isDirty) = false := by
  induction l with
  | nil => rfl
  | cons e rest ih => simp [ih]

/-- A Boolean filter is idempotent. -/
theorem filter_self_idem {α : Type} (p : α → Bool) (l : List α) :
    (l.filter p).filter p = l.filter p := by
  induction l with
  | nil => rfl
  | cons a t ih => cases h : p a <;> simp [List.filter_cons, h, ih]

/-- If no element matches `q`, filtering out the matches changes nothing. -/
theorem filter_not_eq_self_of_none {α : Type} (q : α → Bool) (l : List α)
    (h : (l.filter q).length = 0) : l.filter (fun a => ! q a) = l := by
  induction l with
  | nil => rfl
  | cons a t ih =>
    cases hq : q a
    · rw [List.filter_cons, hq] at h
      simp [List.filter_cons, hq, ih h]
    · rw [List.filter_cons, hq] at h
      simp at h

/-- C1: every chunk-data operation of the persistent storage manager consults
the routing predicate and acts on exactly one backend.  When the key's table
has no classification, the only possible classification error is
`UnregisteredTable` and every operation fails with it, leaving the manager
state unchanged — never silently defaulting to a backend.  When the key
classifies Local, no operation touches the Foreign backend, and when it
classifies Foreign, no operation touches the Local backend. -/
theorem claim1_dispatch_routing (s : PersistentStorageMgr)
    (p : BufferProperty) (k : ChunkKey) (src : List Nat) (n psz isz : Nat)
    (purge : Bool) :
    match classify s k with
    | .error e =>
        e = StorageErr.UnregisteredTable ∧
        createBuffer s p k psz isz = (.error StorageErr.UnregisteredTable, s) ∧
        getBuffer s p k n = (.error StorageErr.UnregisteredTable, s) ∧
        fetchBuffer s k n = (.error StorageErr.UnregisteredTable, s) ∧
        putBuffer s k src n = (.error StorageErr.UnregisteredTable, s) ∧
        deleteBuffer s k purge = (.error StorageErr.UnregisteredTable, s) ∧
        isBufferOnDevice s k = (.error StorageErr.UnregisteredTable, s)
    | .ok BackendKind.Local =>
        (createBuffer s p k psz isz).2.foreign_storage_mgr =
          s.foreign_storage_mgr ∧
        (getBuffer s p k n).2.foreign_storage_mgr = s.foreign_storage_mgr ∧
        (fetchBuffer s k n).2.foreign_storage_mgr = s.foreign_storage_mgr ∧
        (putBuffer s k src n).2.foreign_storage_mgr = s.foreign_storage_mgr ∧
        (deleteBuffer s k purge).2.foreign_storage_mgr =
          s.foreign_storage_mgr ∧
        (isBufferOnDevice s k).2.foreign_storage_mgr = s.foreign_storage_mgr
    | .ok BackendKind.Foreign =>
        (createBuffer s p k psz isz).2.global_file_mgr = s.global_file_mgr ∧
        (getBuffer s p k n).2.global_file_mgr = s.global_file_mgr ∧
        (fetchBuffer s k n).2.global_file_mgr = s.global_file_mgr ∧
        (putBuffer s k src n).2.global_file_mgr = s.global_file_mgr ∧
        (deleteBuffer s k purge).2.global_file_mgr = s.global_file_mgr ∧
        (isBufferOnDevice s k).2.global_file_mgr = s.global_file_mgr := by
  cases hc : classify s k with
  | error e =>
    have he : e = StorageErr.UnregisteredTable := by
      unfold classify at hc
      split at hc
      · exact (Except.error.inj hc).symm
      · split at hc
        · exact (Except.error.inj hc).symm
        · exact Except.noConfusion hc
    subst he
    refine ⟨rfl, ?_, ?_, ?_, ?_, ?_, ?_⟩ <;>
      simp [createBuffer, getBuffer, fetchBuffer, putBuffer, deleteBuffer,
        isBufferOnDevice, hc]
  | ok b =>
    cases b with
    | Local =>
      refine ⟨?_, ?_, ?_, ?_, ?_, ?_⟩ <;>
        · simp only [createBuffer, getBuffer, fetchBuffer, putBuffer,
            deleteBuffer, isBufferOnDevice, hc]
          repeat' split
          all_goals rfl
    | Foreign =>
      refine ⟨?_, ?_, ?_, ?_, ?_, ?_⟩ <;>
        · simp only [createBuffer, getBuffer, fetchBuffer, putBuffer,
            deleteBuffer, isBufferOnDevice, hc]
          repeat' split
          all_goals rfl

/-- C2: `putBuffer` on a Foreign-classified key fails with `ReadOnlyBackend`
for every source buffer and byte count, returning the manager state unchanged
(both backends untouched, no partial write applied). -/
theorem claim2_putBuffer_foreign_readonly (s : PersistentStorageMgr)
    (k : ChunkKey) (src : List Nat) (n : Nat)
    (h : classify s k = .ok BackendKind.Foreign) :
    putBuffer s k src n = (.error StorageErr.ReadOnlyBackend, s) := by
  simp [putBuffer, h]

/-- C3: both checkpoint overloads act on the Local backend only: the Foreign
backend's state (and the routing registry) is unchanged by any checkpoint
call. -/
theorem claim3_checkpoint_local_only (s : PersistentStorageMgr)
    (db_id tb_id : Nat) :
    (checkpoint s).foreign_storage_mgr = s.foreign_storage_mgr ∧
    (checkpoint s).registry = s.registry ∧
    (checkpointTable s db_id tb_id).foreign_storage_mgr =
      s.foreign_storage_mgr ∧
    (checkpointTable s db_id tb_id).registry = s.registry :=
  ⟨rfl, rfl, rfl, rfl⟩

/-- A successful `createBuffer` returns the handle of the requested key, and
that key has a resident buffer in the resulting state. -/
theorem createBuffer_ok_handle (s : PersistentStorageMgr) (p : BufferProperty)
    (k : ChunkKey) (psz isz : Nat) (hk : Option ChunkKey)
    (s1 : PersistentStorageMgr)
    (h : createBuffer s p k psz isz = (.ok hk, s1)) :
    hk = some k ∧ (lookupAny s1 k).isSome = true := by
  unfold createBuffer at h
  split at h
  · exact absurd h (by simp)
  · split at h
    · exact absurd h (by simp)
    · injection h with h1 h2
      injection h1 with h1
      subst h2
      exact ⟨h1.symm, by simp [lookupAny, lookupKey]⟩
  · split at h
    · exact absurd h (by simp)
    · injection h with h1 h2
      injection h1 with h1
      subst h2
      refine ⟨h1.symm, ?_⟩
      cases hg : lookupKey s.global_file_mgr.buffers k <;>
        simp [lookupAny, lookupKey, hg]

/-- Recording a row count on a key with a resident buffer makes that row count
the one recorded on the key. -/
theorem maxRowsAt_setMaxRows (s : PersistentStorageMgr) (k : ChunkKey)
    (n : Nat) (h : (lookupAny s k).isSome = true) :
    maxRowsAt (setMaxRows s k n) k = some n := by
  unfold maxRowsAt lookupAny setMaxRows
  cases hg : lookupKey s.global_file_mgr.buffers k with
  | some b => simp [hg, lookupKey_updateKey]
  | none =>
    unfold lookupAny at h
    rw [hg] at h
    cases hf : lookupKey s.foreign_storage_mgr.buffers k with
    | some b => simp [hg, hf, lookupKey_updateKey]
    | none => rw [hf] at h; simp at h

/-- C4: the row-count/type-size `createBuffer` variant returns exactly the
buffer handle produced by the page-size/initial-size `createBuffer` called
with initial size `maxRows * sqlTypeSize`, and the expected row count
`maxRows` is recorded on that buffer before it is returned to the caller. -/
theorem claim4_rowcount_create_delegates (s : PersistentStorageMgr)
    (p : BufferProperty) (k : ChunkKey) (maxRows : Nat) (sqlTypeSize : Int)
    (page_size : Nat) (hk : ChunkKey) (s1 : PersistentStorageMgr)
    (h : createBuffer s p k page_size
        (rowCountInitialSize maxRows sqlTypeSize) = (.ok (some hk), s1)) :
    createBufferRowCount s p k maxRows sqlTypeSize page_size =
      (.ok (some hk), setMaxRows s1 hk maxRows) ∧
    maxRowsAt (setMaxRows s1 hk maxRows) hk = some maxRows := by
  obtain ⟨h1, h2⟩ := createBuffer_ok_handle _ _ _ _ _ _ _ h
  have hkk : hk = k := Option.some.inj h1
  constructor
  · unfold createBufferRowCount
    rw [h]
  · subst hkk
    exact maxRowsAt_setMaxRows _ _ _ h2

/-- Witness for C4: concrete delegation with `maxRows = 10`,
`sqlTypeSize = 4`, page size 8 on a registered Local table. -/
theorem claim4_rowcount_create_delegates_witness :
    createBufferRowCount sampleMgr BufferProperty.Normal [1, 2, 1, 0] 10 4 8 =
      (.ok (some [1, 2, 1, 0]), setMaxRows sampleCreated [1, 2, 1, 0] 10) ∧
    maxRowsAt (setMaxRows sampleCreated [1, 2, 1, 0] 10) [1, 2, 1, 0] =
      some 10 :=
  claim4_rowcount_create_delegates sampleMgr BufferProperty.Normal
    [1, 2, 1, 0] 10 4 8 [1, 2, 1, 0] sampleCreated (by rfl)

/-- Multiplying a natural by the wrapped value of an integer, modulo `n`,
equals the wrapped exact integer product. -/
theorem natmul_emod_toNat (a : Nat) (b : Int) (n : Nat) (hn : 0 < n) :
    a * (b % (n : Int)).toNat % n = ((a : Int) * b % (n : Int)).toNat := by
  have hn' : ((n : Int)) ≠ 0 := Int.natCast_ne_zero.mpr hn.ne'
  have hb : (0 : Int) ≤ b % (n : Int) := Int.emod_nonneg _ hn'
  have hr : (0 : Int) ≤ (a : Int) * b % (n : Int) := Int.emod_nonneg _ hn'
  have key : ((a * (b % (n : Int)).toNat % n : Nat) : Int) =
      (a : Int) * b % (n : Int) := by
    push_cast [Int.toNat_of_nonneg hb]
    conv_lhs => rw [Int.mul_emod]
    conv_rhs => rw [Int.mul_emod]
    rw [Int.emod_emod_of_dvd _ dvd_rfl]
  omega

/-- C5: the initial byte size computed by the row-count/type-size
`createBuffer` variant is the exact product `maxRows * sqlTypeSize` reduced
modulo `2 ^ 64` (the machine's `size_t` arithmetic), for all values of the two
operands; the concrete conjuncts show an overflowing product wrapping to `0`
rather than saturating or failing, and an in-range product kept exact. -/
theorem claim5_initial_size_modular (maxRows : Nat) (sqlTypeSize : Int) :
    rowCountInitialSize maxRows sqlTypeSize =
      (((maxRows : Int) * sqlTypeSize) % (SIZE_T_MOD : Int)).toNat ∧
    rowCountInitialSize (2 ^ 63) 4 = 0 ∧
    rowCountInitialSize 3 5 = 15 := by
  refine ⟨?_, by rfl, by rfl⟩
  unfold rowCountInitialSize sizeTMul sizeTOfInt
  exact natmul_emod_toNat maxRows sqlTypeSize SIZE_T_MOD
    (by norm_num [SIZE_T_MOD])

/-- C6: the capacity accessors aggregate over both backends: each is the sum
of the corresponding backend accessor, an uncapped Foreign max size
contributing the "no cap" sentinel; on the spec's concrete example (Local
reporting (100, 40, 40), Foreign reporting (uncapped, 10, 10)) the in-use sum
is 50, the max-size sum is 100, the allocated sum is 50 and the whole system
is uncapped. -/
theorem claim6_capacity_sums (s : PersistentStorageMgr) :
    getMaxSize s =
      noCapContribution s.global_file_mgr.stats.maxSize +
        noCapContribution s.foreign_storage_mgr.stats.maxSize ∧
    getInUseSize s =
      s.global_file_mgr.stats.inUse + s.foreign_storage_mgr.stats.inUse ∧
    getAllocated s =
      s.global_file_mgr.stats.allocated +
        s.foreign_storage_mgr.stats.allocated ∧
    getInUseSize sampleMgr = 50 ∧
    isAllocationCapped sampleMgr = false ∧
    getMaxSize sampleMgr = 100 ∧
    getAllocated sampleMgr = 50 :=
  ⟨rfl, rfl, rfl, rfl, rfl, rfl, rfl⟩

/-- C7: `isAllocationCapped` is true exactly when every backend reports
capped; one backend without a cap makes the whole system uncapped. -/
theorem claim7_allocation_capped_iff (s : PersistentStorageMgr) :
    isAllocationCapped s = true ↔
      s.global_file_mgr.stats.capped = true ∧
        s.foreign_storage_mgr.stats.capped = true := by
  simp [isAllocationCapped]

/-- C8: while a dirty (unflushed) Local buffer exists, `clearSlabs` fails with
`UncommittedDataPresent` and discards nothing (the state is returned
unchanged); an intervening `checkpoint` leaves no dirty Local buffer, after
which the same `clearSlabs` call succeeds. -/
theorem claim8_clearSlabs_uncommitted (s : PersistentStorageMgr)
    (h : hasDirtyLocal s = true) :
    clearSlabs s = (.error StorageErr.UncommittedDataPresent, s) ∧
    hasDirtyLocal (checkpoint s) = false ∧
    (clearSlabs (checkpoint s)).1 = .ok () := by
  have h2 : hasDirtyLocal (checkpoint s) = false := by
    simp [hasDirtyLocal, checkpoint, any_isDirty_map_clear]
  exact ⟨by simp [clearSlabs, h], h2, by simp [clearSlabs, h2]⟩

/-- Witness for C8: a Local backend holding one dirty buffer. -/
theorem claim8_clearSlabs_uncommitted_witness :
    clearSlabs dirtyMgr = (.error StorageErr.UncommittedDataPresent, dirtyMgr) ∧
    hasDirtyLocal (checkpoint dirtyMgr) = false ∧
    (clearSlabs (checkpoint dirtyMgr)).1 = .ok () :=
  claim8_clearSlabs_uncommitted dirtyMgr (by rfl)

/-- C9: `removeTableRelatedDS` is idempotent: a second call in succession
changes nothing more, and a call on a table with zero resident chunks in
either backend leaves the state exactly as it was (the operation cannot fail
by construction). -/
theorem claim9_removeTable_idem (s : PersistentStorageMgr)
    (db_id tb_id : Nat) :
    removeTableRelatedDS (removeTableRelatedDS s db_id tb_id) db_id tb_id =
      removeTableRelatedDS s db_id tb_id ∧
    (residentChunks s db_id tb_id = 0 →
      removeTableRelatedDS s db_id tb_id = s) := by
  constructor
  · simp [removeTableRelatedDS, filter_self_idem]
  · intro h0
    unfold residentChunks at h0
    have hg :
        (s.global_file_mgr.buffers.filter
          (fun e => inTable db_id tb_id e.1)).length = 0 := by omega
    have hf :
        (s.foreign_storage_mgr.buffers.filter
          (fun e => inTable db_id tb_id e.1)).length = 0 := by omega
    have eg := filter_not_eq_self_of_none
      (fun e => inTable db_id tb_id e.1) s.global_file_mgr.buffers hg
    have ef := filter_not_eq_self_of_none
      (fun e => inTable db_id tb_id e.1) s.foreign_storage_mgr.buffers hf
    simp [removeTableRelatedDS, eg, ef]

/-- Witness for C9: a second removal is a no-op on a state with resident
chunks, and removal of a table with zero resident chunks returns the state
unchanged. -/
theorem claim9_removeTable_idem_witness :
    removeTableRelatedDS (removeTableRelatedDS dirtyMgr 1 2) 1 2 =
      removeTableRelatedDS dirtyMgr 1 2 ∧
    removeTableRelatedDS sampleMgr 5 6 = sampleMgr :=
  ⟨(claim9_removeTable_idem dirtyMgr 1 2).1,
   (claim9_removeTable_idem sampleMgr 5 6).2 (by rfl)⟩

/-- C10: the page-size/initial-size `createBuffer` never returns a null
buffer handle: whenever it returns successfully, the handle is non-null
(failures are raised as errors instead), so the row-count variant's
unconditional recording of the row count on the returned handle is safe. -/
theorem claim10_createBuffer_nonnull (s : PersistentStorageMgr)
    (p : BufferProperty) (k : ChunkKey) (page_size initial_size : Nat)
    (hk : Option ChunkKey) (s1 : PersistentStorageMgr)
    (h : createBuffer s p k page_size initial_size = (.ok hk, s1)) :
    hk.isSome = true := by
  obtain ⟨h1, -⟩ := createBuffer_ok_handle _ _ _ _ _ _ _ h
  rw [h1]
  rfl

/-- Witness for C10: a concrete successful creation returns a non-null
handle. -/
theorem claim10_createBuffer_nonnull_witness :
    (some ([1, 2, 1, 0] : ChunkKey)).isSome = true :=
  claim10_createBuffer_nonnull sampleMgr BufferProperty.Normal [1, 2, 1, 0]
    8 40 (some [1, 2, 1, 0]) sampleCreated (by rfl)

/-- Witness for C2: a concrete write against the Foreign-classified table
`(3, 4)` is rejected with the state unchanged. -/
theorem claim2_putBuffer_foreign_readonly_witness :
    putBuffer sampleMgr [3, 4, 1, 0] [7] 1 =
      (.error StorageErr.ReadOnlyBackend, sampleMgr) :=
  claim2_putBuffer_foreign_readonly sampleMgr [3, 4, 1, 0] [7] 1 (by rfl)

/-- Witness for C1: for the concrete unregistered table `(9, 9)`, every
chunk-data operation fails with `UnregisteredTable` and returns the manager
state unchanged. -/
theorem claim1_dispatch_routing_witness :
    StorageErr.UnregisteredTable = StorageErr.UnregisteredTable ∧
    createBuffer sampleMgr BufferProperty.Normal [9, 9, 1, 0] 8 16 =
      (.error StorageErr.UnregisteredTable, sampleMgr) ∧
    getBuffer sampleMgr BufferProperty.Normal [9, 9, 1, 0] 4 =
      (.error StorageErr.UnregisteredTable, sampleMgr) ∧
    fetchBuffer sampleMgr [9, 9, 1, 0] 4 =
      (.error StorageErr.UnregisteredTable, sampleMgr) ∧
    putBuffer sampleMgr [9, 9, 1, 0] [5] 4 =
      (.error StorageErr.UnregisteredTable, sampleMgr) ∧
    deleteBuffer sampleMgr [9, 9, 1, 0] true =
      (.error StorageErr.UnregisteredTable, sampleMgr) ∧
    isBufferOnDevice sampleMgr [9, 9, 1, 0] =
      (.error StorageErr.UnregisteredTable, sampleMgr) :=
  claim1_dispatch_routing sampleMgr BufferProperty.Normal [9, 9, 1, 0] [5]
    4 8 16 true
